import Mathlib

/-!
Shallow embedding of the lead-scraper pipeline (lead-scraper repository).

The Python sources embedded here:
  - realtime_linkedin_scraper.py   (EmailGenerator, LeadScorer, LeadDatabase,
    DailyLeadCollector, GoogleSheetsSync)
  - ai_hardware_sales_platform.py  (ContactEnrichment, LeadScoringEngine,
    SalesIntelligencePlatform name split)
  - apollo_linkedin_scraper.py     (ApolloLeadScraper)
  - apify_sales_lead/apify_linkedin_scraper.py (ApifyLinkedInScraper)
  - complete_scraper_gsheets.py    (GoogleSheetsSync.sync_leads)

External effects (HTTP, sqlite, Google Sheets, clocks, sleeps) are modelled by
explicit state passing and oracle functions; SQLite tables become Lean lists of
records and the UNIQUE column constraint becomes an explicit key-membership
check.  All numeric scores in the sources take small non-negative integer
values, so they are modelled as Nat.
-/

/-! ## String helpers (Python `in`, `startswith`, `lower`, `split`, `strip`) -/

/-- Python `s.lower()` (ASCII case folding, which covers every
string literal appearing in the sources). -/
def lowerStr (s : String) : String := String.mk (s.toList.map Char.toLower)

/-- `listStarts hay needle`: `needle` is an initial segment of `hay`. -/
def listStarts : List Char → List Char → Bool
  | _, [] => true
  | [], _ :: _ => false
  | a :: as, b :: bs => a == b && listStarts as bs

/-- `listHasSub hay needle`: `needle` occurs contiguously inside `hay`
(Python `needle in hay` on strings). -/
def listHasSub : List Char → List Char → Bool
  | [], n => n.isEmpty
  | h :: t, n => listStarts (h :: t) n || listHasSub t n

/-- Python substring test `needle in hay`. -/
def strHasSub (hay needle : String) : Bool := listHasSub hay.toList needle.toList

/-- Python `hay.startswith(needle)`. -/
def strStarts (hay needle : String) : Bool := listStarts hay.toList needle.toList

/-- Python slice `s[a:b]` (clamped, as in Python). -/
def strSlice (s : String) (a b : Nat) : String :=
  String.mk ((s.toList.drop a).take (b - a))

/-- Whitespace recognised by Python `str.split()` / `str.strip()`
(the characters that occur in this repository's data). -/
def isSpaceChar (c : Char) : Bool := c == ' ' || c == '\t' || c == '\n' || c == '\r'

/-- Helper for `splitWs`: accumulates the current (reversed) token. -/
def splitWsAux : List Char → List Char → List String
  | [], cur => if cur.isEmpty then [] else [String.mk cur.reverse]
  | c :: rest, cur =>
    if isSpaceChar c then
      if cur.isEmpty then splitWsAux rest []
      else String.mk cur.reverse :: splitWsAux rest []
    else splitWsAux rest (c :: cur)

/-- Python `s.split()`: split on runs of whitespace, dropping empty tokens. -/
def splitWs (s : String) : List String := splitWsAux s.toList []

/-- Python `s.strip()`: remove leading and trailing whitespace. -/
def strStrip (s : String) : String :=
  String.mk (((s.toList.dropWhile isSpaceChar).reverse.dropWhile isSpaceChar).reverse)

/-- First character of a string as a one-character string (`s[0]` in Python;
the sources only index non-empty split tokens, where this total version agrees). -/
def strTake1 (s : String) : String :=
  match s.toList with
  | [] => ""
  | c :: _ => String.mk [c]

/-- Python `int(''.join(filter(str.isdigit, s)) or 0)`: the number formed by
the digit characters of `s`, or 0 when there are none. -/
def digitsToNat (s : String) : Nat :=
  (s.toList.filter Char.isDigit).foldl (fun n c => n * 10 + (c.toNat - 48)) 0

example : strHasSub "it director" "director" = true := by decide
example : strHasSub "cto dubai" "cio" = false := by decide
example : splitWs "  Ahmed  Hassan " = ["Ahmed", "Hassan"] := by decide
example : strSlice "+97150123" 4 6 = "50" := by decide
example : strStrip "  du  " = "du" := by decide
example : digitsToNat "500+" = 500 := by decide
example : lowerStr "IT Director" = "it director" := by decide

/-! ## Title-seniority bands

Each scorer decides a title sub-score by an ordered list of keyword bands;
`bandScore` is the shared shape of the Python `if/elif` chains and of the
`for keyword, points in title_scores.items(): ... break` loop. -/

/-- First-match-wins walk over an ordered keyword-band list: the points of the
first band one of whose keywords occurs in `t`, else 0. -/
def bandScore (t : String) : List (List String × Nat) → Nat
  | [] => 0
  | (kws, pts) :: rest => if kws.any (fun k => strHasSub t k) then pts else bandScore t rest

/-- The largest points value among the bands that match `t` (0 when none match);
used to compare against the first-match semantics of `bandScore`. -/
def maxMatchedBand (t : String) : List (List String × Nat) → Nat
  | [] => 0
  | b :: rest =>
    if b.1.any (fun k => strHasSub t k) then max b.2 (maxMatchedBand t rest)
    else maxMatchedBand t rest

/-- Bands of `LeadScorer.calculate_score` (realtime_linkedin_scraper.py). -/
def rtTitleBands : List (List String × Nat) :=
  [(["cto", "cio", "chief"], 40),
   (["director", "vp", "head"], 30),
   (["manager"], 20),
   (["senior"], 15)]

/-- Bands of `ApolloLeadScraper.calculate_lead_score` (apollo_linkedin_scraper.py). -/
def apolloTitleBands : List (List String × Nat) :=
  [(["cto", "chief technology", "chief information"], 35),
   (["director", "vp", "vice president"], 30),
   (["manager"], 20),
   (["head", "lead"], 15)]

/-- Bands of `ApifyLinkedInScraper.calculate_lead_score`
(apify_sales_lead/apify_linkedin_scraper.py). -/
def apifyTitleBands : List (List String × Nat) :=
  [(["cto", "chief technology", "chief information"], 40),
   (["director", "vp", "vice president"], 30),
   (["manager"], 20),
   (["head", "lead"], 15)]

/-- The `title_scores` dict of `LeadScoringEngine.calculate_score`
(ai_hardware_sales_platform.py), in Python dict insertion order; each keyword is
matched lower-cased (`keyword.lower() in lead.job_title.lower()`). -/
def platTitleBands : List (List String × Nat) :=
  [(["cto"], 30),
   (["cio"], 30),
   (["vp"], 25),
   (["director"], 20),
   (["manager"], 15),
   (["head"], 20)]

/-! ## LeadScorer (realtime_linkedin_scraper.py) -/

/-- Canonical lead record of realtime_linkedin_scraper.py / the `leads`
SQLite table of complete_scraper_gsheets.py (one field per column written by
`insert_lead`; the autoincrement id and timestamps are not part of the record
identity). -/
structure RtLead where
  date_added : String := ""
  name : String := ""
  title : String := ""
  company : String := ""
  location : String := ""
  industry : String := ""
  company_size : String := ""
  linkedin_url : String := ""
  email_1 : String := ""
  email_2 : String := ""
  email_3 : String := ""
  phone : String := ""
  whatsapp : String := ""
  company_website : String := ""
  products_interest : String := ""
  lead_score : Nat := 0
  priority : String := ""
  notes : String := ""
  next_action : String := ""
  status : String := ""
deriving DecidableEq, Repr

namespace LeadScorer

/-- Companies treated as large in `LeadScorer.calculate_score`. -/
def large_companies : List String :=
  ["emirates", "etisalat", "du", "adnoc", "dewa", "sewa",
   "airport", "bank", "university", "hospital"]

/-- `LeadScorer.calculate_score` (realtime_linkedin_scraper.py lines 349-393):
title band + company size estimate + location match + contact completeness,
capped at 100. -/
def calculate_score (lead : RtLead) : Nat :=
  let title := lowerStr lead.title
  let company := lead.company
  let location := lowerStr lead.location
  let titlePts := bandScore title rtTitleBands
  let companyPts :=
    if large_companies.any (fun c => strHasSub (lowerStr company) c) then 20
    else if company ≠ "" then 10 else 0
  let locationPts :=
    if strHasSub location "sharjah" || strHasSub location "ras al khaimah" ||
        strHasSub location "rak" then 15
    else if strHasSub location "dubai" || strHasSub location "uae" then 10 else 0
  let contactPts :=
    (if lead.email_1 ≠ "" then 10 else 0) +
    (if lead.phone ≠ "" then 8 else 0) +
    (if lead.linkedin_url ≠ "" then 7 else 0)
  min (titlePts + companyPts + locationPts + contactPts) 100

/-- `LeadScorer.get_priority` (realtime_linkedin_scraper.py lines 395-408). -/
def get_priority (score : Nat) : String :=
  if score ≥ 90 then "Hot"
  else if score ≥ 80 then "High"
  else if score ≥ 70 then "Medium"
  else "Low"

end LeadScorer

example : LeadScorer.calculate_score
    { name := "Ahmed", title := "IT Director", company := "RAK Ceramics",
      location := "Ras Al Khaimah, UAE", linkedin_url := "https://linkedin.com/in/x" } =
    40 + 10 + 15 + 7 := by decide  -- "director" contains the substring "cto"
example : LeadScorer.get_priority 92 = "Hot" := by decide
example : LeadScorer.get_priority 62 = "Low" := by decide

/-! ## LeadScoringEngine and ContactEnrichment (ai_hardware_sales_platform.py) -/

/-- The `Lead` dataclass fields read by `LeadScoringEngine.calculate_score` and
`ContactEnrichment` (ai_hardware_sales_platform.py).  `Optional[str]` fields are
modelled as `String` with `""` for `None` (both are falsy in the Python
truthiness tests the code performs); `Optional[List]` as a `List` with `[]`
for `None`. -/
structure PlatLead where
  contact_name : String := ""
  job_title : String := ""
  company_name : String := ""
  company_size : String := ""
  email : String := ""
  phone : String := ""
  whatsapp : String := ""
  linkedin_url : String := ""
  tech_stack : List String := []
  linkedin_connection_accepted : Bool := false
  linkedin_response_received : Bool := false
deriving DecidableEq, Repr

namespace LeadScoringEngine

/-- The `size_scores` dict of `LeadScoringEngine.calculate_score`
(exact-key lookup with default 5). -/
def size_scores (sz : String) : Nat :=
  if sz = "1000+" then 20
  else if sz = "501-1000" then 18
  else if sz = "201-500" then 15
  else if sz = "51-200" then 12
  else if sz = "11-50" then 8
  else 5

/-- The `relevant_tech` list of `LeadScoringEngine.calculate_score`. -/
def relevant_tech : List String := ["AWS", "Azure", "Dell", "HPE", "Cisco", "VMware"]

/-- `LeadScoringEngine.calculate_score` (ai_hardware_sales_platform.py lines
519-566): title band (first matching entry of `title_scores`, in dict order)
+ company size + contact completeness + tech-stack match + engagement,
capped at 100.  `len(set(tech_stack) & set(relevant_tech))` is the number of
`relevant_tech` entries present in the stack (`relevant_tech` has no
duplicates). -/
def calculate_score (lead : PlatLead) : Nat :=
  let titlePts := bandScore (lowerStr lead.job_title) platTitleBands
  let sizePts := if lead.company_size ≠ "" then size_scores lead.company_size else 0
  let contactPts :=
    (if lead.email ≠ "" then 10 else 0) +
    (if lead.phone ≠ "" then 8 else 0) +
    (if lead.linkedin_url ≠ "" then 7 else 0)
  let techPts :=
    if lead.tech_stack ≠ [] then
      min ((relevant_tech.filter (fun t => lead.tech_stack.contains t)).length * 5) 15
    else 0
  let engagementPts :=
    (if lead.linkedin_connection_accepted then 5 else 0) +
    (if lead.linkedin_response_received then 5 else 0)
  min (titlePts + sizePts + contactPts + techPts + engagementPts) 100

end LeadScoringEngine

namespace ContactEnrichment

/-- `ContactEnrichment.find_whatsapp` (ai_hardware_sales_platform.py lines
234-244): a phone is reported WhatsApp-capable when it starts with `+971` and
the character `5` occurs in the slice `phone[4:6]` (the two characters after
the country code). -/
def find_whatsapp (phone : String) : Option String :=
  if phone ≠ "" && strStarts phone "+971" then
    if strHasSub (strSlice phone 4 6) "5" then some phone else none
  else none

end ContactEnrichment

example : ContactEnrichment.find_whatsapp "+971501234567" = some "+971501234567" := by decide
example : ContactEnrichment.find_whatsapp "+97172448222" = none := by decide
example : ContactEnrichment.find_whatsapp "0501234567" = none := by decide
example : ContactEnrichment.find_whatsapp "+97125551234" = some "+97125551234" := by decide

/-! ## ApolloLeadScraper (apollo_linkedin_scraper.py) -/

/-- An Apollo person record, as read by `calculate_lead_score` and
`extract_lead_data` (missing JSON fields are the falsy defaults the Python
`.get` calls produce).  `phone_numbers` entries are
(sanitized_number, type) pairs. -/
structure ApolloPerson where
  id : String := ""
  name : String := ""
  first_name : String := ""
  last_name : String := ""
  title : String := ""
  email : String := ""
  email_status : String := ""
  email_confidence : String := ""
  linkedin_url : String := ""
  city : String := ""
  state : String := ""
  country : String := ""
  phone_numbers : List (String × String) := []
  org_name : String := ""
  org_website_url : String := ""
  org_linkedin_url : String := ""
  org_industry : String := ""
  org_estimated_num_employees : Nat := 0
deriving DecidableEq, Repr

/-- Row of the `leads` table of apollo_linkedin_scraper.py (the columns
`extract_lead_data` fills; `collected_date`/`last_updated` carry the `now`
string the caller obtained from the clock). -/
structure ApolloLead where
  apollo_id : String := ""
  name : String := ""
  first_name : String := ""
  last_name : String := ""
  title : String := ""
  email : String := ""
  email_status : String := ""
  phone : String := ""
  mobile_phone : String := ""
  linkedin_url : String := ""
  company_name : String := ""
  company_website : String := ""
  company_linkedin : String := ""
  company_size : String := ""
  company_industry : String := ""
  location_city : String := ""
  location_state : String := ""
  location_country : String := ""
  lead_score : Nat := 0
  contact_accuracy : String := ""
  collected_date : String := ""
  last_updated : String := ""
  notes : String := ""
deriving DecidableEq, Repr

namespace ApolloLeadScraper

/-- `ApolloLeadScraper.calculate_lead_score` (apollo_linkedin_scraper.py lines
213-255): title band + email status + phone presence + employee count
+ city match, capped at 100. -/
def calculate_lead_score (p : ApolloPerson) : Nat :=
  let titlePts := bandScore (lowerStr p.title) apolloTitleBands
  let emailPts :=
    if p.email_status = "verified" then 20
    else if p.email_status = "guessed" then 10 else 0
  let phonePts := if p.phone_numbers ≠ [] then 10 else 0
  let sizePts :=
    if p.org_estimated_num_employees ≥ 1000 then 20
    else if p.org_estimated_num_employees ≥ 200 then 15
    else if p.org_estimated_num_employees ≥ 50 then 10
    else if p.org_estimated_num_employees ≥ 10 then 5 else 0
  let cityL := lowerStr p.city
  let locationPts :=
    if ["dubai", "sharjah", "rak", "abu dhabi"].any (fun c => strHasSub cityL c)
    then 15 else 0
  min (titlePts + emailPts + phonePts + sizePts + locationPts) 100

end ApolloLeadScraper

/-- Python `sep.join(parts)`. -/
def joinSep (sep : String) : List String → String
  | [] => ""
  | [x] => x
  | x :: xs => x ++ sep ++ joinSep sep xs

namespace ApolloLeadScraper

/-- The phone-classification loop of `extract_lead_data`: a later `mobile`
entry overwrites an earlier one, the first non-mobile entry becomes the
primary phone. -/
def classifyPhones (phones : List (String × String)) : Option String × Option String :=
  phones.foldl
    (fun acc ph =>
      if ph.2 = "mobile" then (acc.1, some ph.1)
      else if acc.1 = none then (some ph.1, acc.2) else acc)
    (none, none)

/-- `ApolloLeadScraper.extract_lead_data` (apollo_linkedin_scraper.py lines
257-311).  `now` stands for `datetime.now().isoformat()`. -/
def extract_lead_data (now : String) (p : ApolloPerson) : ApolloLead :=
  let phones := classifyPhones p.phone_numbers
  let primary := phones.1.getD ""
  let mobile := phones.2.getD ""
  let notes := joinSep " | "
    ((if p.email_status = "verified" then ["✓ Verified email"] else []) ++
     (if phones.2 ≠ none then ["📱 Mobile available"] else []) ++
     (if p.org_estimated_num_employees ≥ 500 then ["🏢 Enterprise company"] else []))
  { apollo_id := p.id
    name := p.name
    first_name := p.first_name
    last_name := p.last_name
    title := p.title
    email := p.email
    email_status := p.email_status
    phone := primary
    mobile_phone := mobile
    linkedin_url := p.linkedin_url
    company_name := p.org_name
    company_website := p.org_website_url
    company_linkedin := p.org_linkedin_url
    company_size := toString p.org_estimated_num_employees
    company_industry := p.org_industry
    location_city := p.city
    location_state := p.state
    location_country := p.country
    lead_score := calculate_lead_score p
    contact_accuracy := p.email_confidence
    collected_date := now
    last_updated := now
    notes := notes }

end ApolloLeadScraper

/-! ## EmailGenerator (realtime_linkedin_scraper.py)

`guess_company_domain` runs
`re.sub(r'\b(llc|ltd|limited|inc|corporation|corp|group|holdings)\b', '', name)`
on the lower-cased company name.  The regex is modelled character-exactly for
ASCII word characters (`[a-z0-9_]`, which covers the alternatives and every
boundary the sources exercise): a scan over the original string that deletes
every non-overlapping, word-boundary-delimited occurrence of an alternative,
alternatives tried in the regex's order. -/

/-- Regex `\w` (ASCII). -/
def isWordChar (c : Char) : Bool := c.isAlpha || c.isDigit || c == '_'

/-- The regex alternatives, in alternation order. -/
def suffix_words : List (List Char) :=
  ["llc", "ltd", "limited", "inc", "corporation", "corp",
   "group", "holdings"].map String.toList

/-- At a position known to be a left word boundary, try each alternative in
order; a match also requires a right word boundary (next character absent or
not a word character).  Returns the remainder of the string after the matched
alternative. -/
def tryWordList : List (List Char) → List Char → Option (List Char)
  | [], _ => none
  | w :: ws, s =>
    let rest := s.drop w.length
    if listStarts s w && rest.head?.all (fun c => !isWordChar c) then some rest
    else tryWordList ws s

/-- `re.sub(r'\b(...)\b', '', ·)`: scan the string left to right; `prev` says
whether the character before the current position is a word character (no
alternative can match unless the position is a word boundary).  Every step
consumes at least one character (matched alternatives are non-empty), so
`fuel := s.length` never runs out; the fuel only makes the recursion
structural. -/
def stripSuffixAux : Nat → Bool → List Char → List Char
  | 0, _, _ => []
  | _ + 1, _, [] => []
  | fuel + 1, prev, c :: rest =>
    if prev then c :: stripSuffixAux fuel (isWordChar c) rest
    else
      match tryWordList suffix_words (c :: rest) with
      | some after => stripSuffixAux fuel true after
      | none => c :: stripSuffixAux fuel (isWordChar c) rest

/-- Delete every word-boundary-delimited corporate-suffix word. -/
def stripSuffixWords (s : List Char) : List Char := stripSuffixAux s.length false s

namespace EmailGenerator

/-- `EmailGenerator.generate_emails` (realtime_linkedin_scraper.py lines
281-300): the six canonical address patterns.  (Python indexes `first[0]`,
which raises on an empty first name; call sites only pass non-empty
whitespace-split tokens, on which `strTake1` agrees.) -/
def generate_emails (first_name last_name company_domain : String) : List String :=
  let first := strStrip (lowerStr first_name)
  let last := strStrip (lowerStr last_name)
  let domain := strStrip (lowerStr company_domain)
  [first ++ "." ++ last ++ "@" ++ domain,
   first ++ "@" ++ domain,
   first ++ last ++ "@" ++ domain,
   strTake1 first ++ last ++ "@" ++ domain,
   first ++ "_" ++ last ++ "@" ++ domain,
   last ++ "." ++ first ++ "@" ++ domain]

/-- The `uae_companies` override dict of `guess_company_domain`, in insertion
order. -/
def uae_companies : List (String × String) :=
  [("emirates", "emirates.com"),
   ("etisalat", "etisalat.ae"),
   ("du", "du.ae"),
   ("adnoc", "adnoc.ae"),
   ("enoc", "enoc.com"),
   ("dewa", "dewa.gov.ae"),
   ("sewa", "sewa.gov.ae"),
   ("rakbank", "rakbank.ae"),
   ("mashreq", "mashreqbank.com"),
   ("emirates nbd", "emiratesnbd.com")]

/-- The `for key, domain in uae_companies.items(): if key in name: return domain`
loop. -/
def lookupDomain : List (String × String) → String → Option String
  | [], _ => none
  | (k, d) :: rest, name => if strHasSub name k then some d else lookupDomain rest name

/-- The first two reassignments of `name` in `guess_company_domain`:
lower-case, delete corporate-suffix words, strip whitespace. -/
def cleaned_name (company_name : String) : String :=
  strStrip (String.mk (stripSuffixWords (lowerStr company_name).toList))

/-- `EmailGenerator.guess_company_domain` (realtime_linkedin_scraper.py lines
302-338): lower-case, strip corporate-suffix words, strip whitespace; return
the override domain of the first matching known organization, else the first
word with `.ae` appended, else `"company.ae"`. -/
def guess_company_domain (company_name : String) : String :=
  let name := cleaned_name company_name
  match lookupDomain uae_companies name with
  | some domain => domain
  | none =>
    match splitWs name with
    | [] => "company.ae"
    | w :: _ => w ++ ".ae"

end EmailGenerator

example : EmailGenerator.guess_company_domain "RAK Ceramics LLC" = "rak.ae" := by decide
example : EmailGenerator.guess_company_domain "Emirates NBD" = "emirates.com" := by decide
example : EmailGenerator.guess_company_domain "LLC" = "company.ae" := by decide
example : EmailGenerator.guess_company_domain "" = "company.ae" := by decide
example : EmailGenerator.guess_company_domain "Dull Industries" = "du.ae" := by decide
example : EmailGenerator.generate_emails "Ahmed" "Hassan" "rak.ae" =
  ["ahmed.hassan@rak.ae", "ahmed@rak.ae", "ahmedhassan@rak.ae",
   "ahassan@rak.ae", "ahmed_hassan@rak.ae", "hassan.ahmed@rak.ae"] := by decide

/-! ## LeadDatabase (realtime_linkedin_scraper.py / complete_scraper_gsheets.py)

The sqlite `leads` table is a list of records; the `linkedin_url TEXT UNIQUE`
column plus the explicit `is_duplicate` pre-check become a key-membership
test.  `insert_lead` stamps `date_added` with the caller-supplied `today`
string (`datetime.now().strftime('%Y-%m-%d')`). -/

namespace LeadDatabase

/-- `LeadDatabase.is_duplicate` (realtime_linkedin_scraper.py lines 461-468):
`SELECT COUNT(*) FROM leads WHERE linkedin_url = ?` is positive. -/
def is_duplicate (db : List RtLead) (linkedin_url : String) : Bool :=
  db.any (fun l => l.linkedin_url == linkedin_url)

/-- `LeadDatabase.insert_lead` (realtime_linkedin_scraper.py lines 470-514):
skip (returning `None`) when the linkedin_url is already stored — by the
explicit pre-check, or by the UNIQUE constraint's `IntegrityError` which the
method converts to `None` — otherwise append the row and return its (positive)
rowid. -/
def insert_lead (today : String) (db : List RtLead) (lead : RtLead) :
    List RtLead × Option Nat :=
  if is_duplicate db lead.linkedin_url then (db, none)
  else (db ++ [{ lead with date_added := today }], some (db.length + 1))

/-- The stored identity keys. -/
def keys (db : List RtLead) : List String := db.map (fun l => l.linkedin_url)

end LeadDatabase

/-! ## GoogleSheetsSync: the two sheet-sync methods

realtime_linkedin_scraper.py's `append_new_leads` appends rows for the given
leads after the existing sheet content; complete_scraper_gsheets.py's
`sync_leads` first runs `batch_clear(['A2:T1000'])` (dropping every data row,
keeping the header) and then appends a row for every stored lead.  A sheet is
a list of rows below nothing (row 1 = header when present). -/

/-- The 20-column row written for a lead (both files use the same column
order); numeric cells rendered as decimal strings. -/
def rtRow (l : RtLead) : List String :=
  [l.date_added, l.name, l.title, l.company, l.location, l.industry,
   l.company_size, l.linkedin_url, l.email_1, l.email_2, l.email_3, l.phone,
   l.whatsapp, l.company_website, l.products_interest, toString l.lead_score,
   l.priority, l.status, l.next_action, l.notes]

namespace GoogleSheetsSync

/-- `GoogleSheetsSync.append_new_leads` (realtime_linkedin_scraper.py lines
585-621): `sheet.append_rows(rows)` — purely additive. -/
def append_new_leads (leads : List RtLead) (sheet : List (List String)) :
    List (List String) :=
  sheet ++ leads.map rtRow

/-- `GoogleSheetsSync.sync_leads` (complete_scraper_gsheets.py lines 520-557):
clear all data rows, then append a row per stored lead; only the header row
survives from the previous sheet state. -/
def sync_leads (leads : List RtLead) (sheet : List (List String)) :
    List (List String) :=
  match sheet with
  | [] => leads.map rtRow
  | header :: _ => header :: leads.map rtRow

end GoogleSheetsSync

/-! ## DailyLeadCollector (realtime_linkedin_scraper.py)

Network-facing collaborators are oracle functions:
`scrape` for `LinkedInProfileFinder.scrape_linkedin_profile`,
`find_site` for `CompanyWebsiteScraper.find_company_website`,
`contacts` for `CompanyWebsiteScraper.extract_contacts_from_website`
(returning the `emails`/`phones` lists), and `search` for
`LinkedInProfileFinder.search_linkedin_profiles`. -/

/-- The dict `scrape_linkedin_profile` returns (`None` when no name could be
scraped, which the oracle models with `Option`). -/
structure ProfileData where
  name : String := ""
  title : String := ""
  company : String := ""
  location : String := ""
deriving DecidableEq, Repr

namespace DailyLeadCollector

/-- The WhatsApp inference of `DailyLeadCollector.enrich_lead`
(realtime_linkedin_scraper.py lines 791-795): the first scraped phone becomes
`whatsapp` exactly when it contains the character `5` anywhere. -/
def whatsapp_of_phone (phone : String) : String :=
  if strHasSub phone "5" then phone else ""

/-- The name split of `DailyLeadCollector.enrich_lead`
(realtime_linkedin_scraper.py lines 766-781): first and last whitespace token,
derived only when the name has at least two tokens. -/
def first_last (name : String) : Option (String × String) :=
  let parts := splitWs name
  if parts.length ≥ 2 then some (parts.headD "", parts.getLastD "") else none

/-- `DailyLeadCollector.enrich_lead` (realtime_linkedin_scraper.py lines
733-801): build the lead dict, fill it from the scraped profile, generate
pattern emails from the name and guessed domain, resolve the company website
and its first phone (with the `'5' in phone` WhatsApp heuristic), then score
and prioritise.  Returns `None` when no name was scraped. -/
def enrich_lead (scrape : String → Option ProfileData)
    (find_site : String → Option String)
    (contacts : String → List String × List String)
    (linkedin_url : String) : Option RtLead :=
  let lead : RtLead :=
    { linkedin_url := linkedin_url,
      products_interest := "IT Hardware, Servers, GPU Systems, Storage, AMC",
      lead_score := 0,
      priority := "Medium",
      next_action := "Send LinkedIn connection request",
      status := "New" }
  let lead :=
    match scrape linkedin_url with
    | some pd =>
      { lead with
        name := pd.name
        title := pd.title
        company := pd.company
        location := pd.location }
    | none => lead
  let lead :=
    if lead.name ≠ "" then
      match first_last lead.name with
      | some (first_name, last_name) =>
        if lead.company ≠ "" then
          let domain := EmailGenerator.guess_company_domain lead.company
          let emails := EmailGenerator.generate_emails first_name last_name domain
          { lead with email_1 := emails.getD 0 "", email_2 := emails.getD 1 "",
                      email_3 := emails.getD 2 "" }
        else lead
      | none => lead
    else lead
  let lead :=
    if lead.company ≠ "" then
      match find_site lead.company with
      | some website =>
        let lead := { lead with company_website := website }
        match (contacts website).2 with
        | [] => lead
        | phone :: _ =>
          { lead with phone := phone, whatsapp := whatsapp_of_phone phone }
      | none => lead
    else lead
  let lead := { lead with lead_score := LeadScorer.calculate_score lead }
  let lead := { lead with priority := LeadScorer.get_priority lead.lead_score }
  if lead.name ≠ "" then some lead else none

/-- Per-run collector state: the store, this run's delta (`new_leads`), and the
global attempts counter. -/
structure RunState where
  db : List RtLead
  new_leads : List RtLead
  attempts : Nat
deriving Repr

/-- The body of the inner `for url in linkedin_urls` loop of
`collect_daily_leads` (realtime_linkedin_scraper.py lines 687-710).  The
`break` on reaching the target is modelled by the leading guard: once the
target is reached the state can no longer change, so guarding each iteration
agrees with breaking out. -/
def processUrl (today : String) (scrape : String → Option ProfileData)
    (find_site : String → Option String)
    (contacts : String → List String × List String)
    (target : Nat) (st : RunState) (url : String) : RunState :=
  if st.new_leads.length ≥ target then st
  else
    let st := { st with attempts := st.attempts + 1 }
    if LeadDatabase.is_duplicate st.db url then st
    else
      match enrich_lead scrape find_site contacts url with
      | none => st
      | some lead =>
        if lead.name ≠ "" then
          match LeadDatabase.insert_lead today st.db lead with
          | (db', some _) =>
            { st with db := db', new_leads := st.new_leads ++ [lead] }
          | (db', none) => { st with db := db' }
        else st

/-- `DailyLeadCollector.collect_daily_leads` (realtime_linkedin_scraper.py
lines 647-731): iterate the (shuffled) query list; before each query, stop
when the target is reached or when `attempts >= max_attempts` with
`max_attempts = target * 3`.  Both stop conditions are monotone, so the outer
`break` is likewise modelled by a guard. -/
def collect_daily_leads (today : String)
    (search : String × String → List String)
    (scrape : String → Option ProfileData)
    (find_site : String → Option String)
    (contacts : String → List String × List String)
    (target : Nat) (db0 : List RtLead)
    (searches : List (String × String)) : RunState :=
  searches.foldl
    (fun st q =>
      if st.new_leads.length ≥ target ∨ st.attempts ≥ target * 3 then st
      else (search q).foldl (processUrl today scrape find_site contacts target) st)
    ⟨db0, [], 0⟩

end DailyLeadCollector

/-! ## ApolloLeadScraper: search retry loop and collection run
(apollo_linkedin_scraper.py) -/

/-- An HTTP response of the Apollo people-search endpoint, as `search_people`
inspects it: a status code, and (for status 200) the `people` list and the
`(page, total_pages)` pagination. -/
structure ApolloResp where
  status : Nat
  people : List ApolloPerson := []
  page : Nat := 0
  total_pages : Nat := 0
deriving Repr

namespace ApolloLeadScraper

/-- `ApolloLeadScraper.search_people` (apollo_linkedin_scraper.py lines
134-177).  `resp k` is the response to the k-th request for this page.
Status 200 returns the payload; status 429 sleeps 60 seconds and calls
`search_people` again on the same page (`return self.search_people(page,
per_page)`); any other status — and any raised exception — returns
`([], {})`.  The Python recursion has no depth bound; `fuel` counts how many
requests we are willing to unfold, `none` meaning the code is still retrying
after `fuel` requests.  The second component accumulates the total seconds
slept. -/
def search_people (resp : Nat → ApolloResp) :
    Nat → Nat → Option ((List ApolloPerson × Nat × Nat) × Nat)
  | _, 0 => none
  | k, fuel + 1 =>
    let r := resp k
    if r.status = 200 then some ((r.people, r.page, r.total_pages), 0)
    else if r.status = 429 then
      match search_people resp (k + 1) fuel with
      | some (res, slept) => some ((res, slept + 60))
      | none => none
    else some (([], 0, 0), 0)

/-- `ApolloLeadScraper.is_duplicate` (apollo_linkedin_scraper.py lines
313-320): `SELECT id FROM leads WHERE apollo_id = ?` finds a row. -/
def is_duplicate (db : List ApolloLead) (apollo_id : String) : Bool :=
  db.any (fun l => l.apollo_id == apollo_id)

/-- `ApolloLeadScraper.save_lead` (apollo_linkedin_scraper.py lines 322-358):
a plain INSERT; the `apollo_id TEXT UNIQUE` constraint raises
`IntegrityError` on a stored key, which the method turns into `False` with
the table unchanged. -/
def save_lead (db : List ApolloLead) (lead : ApolloLead) :
    List ApolloLead × Bool :=
  if is_duplicate db lead.apollo_id then (db, false)
  else (db ++ [lead], true)

/-- Per-run state of `run_daily_collection`: store, `self.leads_collected`,
the rows inserted this run (the run delta the spec's Sync Sink notion refers
to), and `total_processed`. -/
structure RunState where
  db : List ApolloLead
  leads_collected : Nat
  new_leads : List ApolloLead
  total_processed : Nat
deriving Repr

/-- Body of the `for person in people` loop of `run_daily_collection`
(apollo_linkedin_scraper.py lines 444-470): stop at the target
(break modelled as a monotone guard), skip duplicates, otherwise extract and
save. -/
def processPerson (now : String) (target : Nat) (st : RunState)
    (p : ApolloPerson) : RunState :=
  if st.leads_collected ≥ target then st
  else if is_duplicate st.db p.id then
    { st with total_processed := st.total_processed + 1 }
  else
    let lead := extract_lead_data now p
    match save_lead st.db lead with
    | (db', true) =>
      { db := db'
        leads_collected := st.leads_collected + 1
        new_leads := st.new_leads ++ [lead]
        total_processed := st.total_processed + 1 }
    | (db', false) =>
      { st with db := db', total_processed := st.total_processed + 1 }

/-- `ApolloLeadScraper.run_daily_collection` (apollo_linkedin_scraper.py lines
423-496), with the source's paged `while self.leads_collected < DAILY_TARGET`
loop abstracted over the concatenated pages: `people` is the sequence of
person records the source produced for this run, in order.  (The outer
`while`'s re-check of the target between pages agrees with the per-person
guard because `leads_collected` is monotone.) -/
def run_daily_collection (now : String) (target : Nat) (db0 : List ApolloLead)
    (people : List ApolloPerson) : RunState :=
  people.foldl (processPerson now target) ⟨db0, 0, [], 0⟩

end ApolloLeadScraper

/-! ## ApifyLinkedInScraper (apify_sales_lead/apify_linkedin_scraper.py) -/

/-- A profile item from the Apify dataset, with the fields `process_profile`
and `calculate_lead_score` read.  `contact_email`/`contact_phone` stand for
the first value `extract_email_from_contact_info` /
`extract_phone_from_contact_info` find in the `contactInfo` dict (`""` when
there is none); `positions_*` are the fields of `positions[0]`. -/
structure ApifyProfile where
  url : String := ""
  profileUrl : String := ""
  fullName : String := ""
  name : String := ""
  firstName : String := ""
  lastName : String := ""
  title : String := ""
  headline : String := ""
  location : String := ""
  contact_email : String := ""
  contact_phone : String := ""
  positions_companyName : String := ""
  positions_companyUrl : String := ""
  positions_companyWebsite : String := ""
  industry : String := ""
  connectionsCount : String := ""
  summary : String := ""
deriving DecidableEq, Repr

/-- Row of the `leads` table of apify_linkedin_scraper.py. -/
structure ApifyLead where
  linkedin_url : String := ""
  name : String := ""
  first_name : String := ""
  last_name : String := ""
  title : String := ""
  headline : String := ""
  location : String := ""
  email : String := ""
  phone : String := ""
  company_name : String := ""
  company_website : String := ""
  company_linkedin : String := ""
  company_industry : String := ""
  connections : String := ""
  about : String := ""
  lead_score : Nat := 0
  collected_date : String := ""
  notes : String := ""
deriving DecidableEq, Repr

namespace ApifyLinkedInScraper

/-- `ApifyLinkedInScraper.calculate_lead_score`
(apify_sales_lead/apify_linkedin_scraper.py lines 249-287), applied by
`process_profile` to the lead dict: title band (falling back to the headline),
location match (the list includes the source's `'ras al khaimam'` spelling),
contact info, profile completeness. -/
def calculate_lead_score (l : ApifyLead) : Nat :=
  let t := lowerStr (if l.title ≠ "" then l.title else l.headline)
  let titlePts := bandScore t apifyTitleBands
  let loc := lowerStr l.location
  let locPts :=
    if ["dubai", "sharjah", "rak", "ras al khaimam", "uae", "emirates"].any
        (fun c => strHasSub loc c) then 20 else 0
  let contactPts :=
    (if l.email ≠ "" then 10 else 0) + (if l.phone ≠ "" then 10 else 0)
  let completenessPts :=
    (if l.about ≠ "" then 5 else 0) +
    (if l.company_name ≠ "" then 5 else 0) +
    (if l.connections ≠ "" then
      if strHasSub l.connections "500+" then 10
      else if digitsToNat l.connections > 200 then 5 else 0
     else 0)
  min (titlePts + locPts + contactPts + completenessPts) 100

/-- The first/last-name derivation of `process_profile`
(apify_sales_lead/apify_linkedin_scraper.py lines 303-310): when no first name
was provided and a full name exists, first token / last token, with an empty
last name for single-token full names; otherwise the provided names pass
through. -/
def derive_first_last (full_name first_name last_name : String) :
    String × String :=
  if first_name = "" ∧ full_name ≠ "" then
    let parts := splitWs full_name
    (parts.headD "", if parts.length > 1 then parts.getLastD "" else "")
  else (first_name, last_name)

/-- `ApifyLinkedInScraper.is_duplicate`
(apify_sales_lead/apify_linkedin_scraper.py lines 358-365). -/
def is_duplicate (db : List ApifyLead) (linkedin_url : String) : Bool :=
  db.any (fun l => l.linkedin_url == linkedin_url)

/-- `ApifyLinkedInScraper.save_lead`
(apify_sales_lead/apify_linkedin_scraper.py lines 367-400): a plain INSERT;
the `linkedin_url TEXT UNIQUE` constraint raises `IntegrityError` on a stored
key, which the method turns into `False` with the table unchanged. -/
def save_lead (db : List ApifyLead) (lead : ApifyLead) :
    List ApifyLead × Bool :=
  if is_duplicate db lead.linkedin_url then (db, false)
  else (db ++ [lead], true)

/-- `ApifyLinkedInScraper.process_profile`
(apify_sales_lead/apify_linkedin_scraper.py lines 289-356): `None` for a
profile without a url or with an already-stored url; otherwise the structured
lead, scored and annotated. -/
def process_profile (now : String) (db : List ApifyLead) (p : ApifyProfile) :
    Option ApifyLead :=
  let linkedin_url := if p.url ≠ "" then p.url else p.profileUrl
  if linkedin_url = "" then none
  else if is_duplicate db linkedin_url then none
  else
    let full_name := if p.fullName ≠ "" then p.fullName else p.name
    let names := derive_first_last full_name p.firstName p.lastName
    let lead : ApifyLead :=
      { linkedin_url := linkedin_url
        name := full_name
        first_name := names.1
        last_name := names.2
        title := p.title
        headline := p.headline
        location := p.location
        email := p.contact_email
        phone := p.contact_phone
        company_name := p.positions_companyName
        company_website := p.positions_companyWebsite
        company_linkedin := p.positions_companyUrl
        company_industry := p.industry
        connections := p.connectionsCount
        about := p.summary
        collected_date := now }
    let lead := { lead with lead_score := calculate_lead_score lead }
    let notes := joinSep " | "
      ((if lead.email ≠ "" then ["✓ Email found"] else []) ++
       (if lead.phone ≠ "" then ["📞 Phone found"] else []) ++
       (if lead.connections ≠ "" && strHasSub lead.connections "500+" then
          ["🌟 500+ connections"] else []))
    some { lead with notes := notes }

/-- Per-run state of the Apify `run_daily_collection`. -/
structure RunState where
  db : List ApifyLead
  leads_collected : Nat
  new_leads : List ApifyLead
deriving Repr

/-- Body of the `for i, profile_data in enumerate(profiles, 1)` loop of
`run_daily_collection` (apify_sales_lead/apify_linkedin_scraper.py lines
487-501); the `break` at the target is the usual monotone guard. -/
def processProfile (now : String) (target : Nat) (st : RunState)
    (p : ApifyProfile) : RunState :=
  if st.leads_collected ≥ target then st
  else
    match process_profile now st.db p with
    | none => st
    | some lead =>
      match save_lead st.db lead with
      | (db', true) =>
        { db := db'
          leads_collected := st.leads_collected + 1
          new_leads := st.new_leads ++ [lead] }
      | (db', false) => { st with db := db' }

/-- `ApifyLinkedInScraper.run_daily_collection`
(apify_sales_lead/apify_linkedin_scraper.py lines 464-515): process the
profiles the actor returned, stopping at the daily target. -/
def run_daily_collection (now : String) (target : Nat) (db0 : List ApifyLead)
    (profiles : List ApifyProfile) : RunState :=
  profiles.foldl (processProfile now target) ⟨db0, 0, []⟩

end ApifyLinkedInScraper

/-! ## SalesIntelligencePlatform name split (ai_hardware_sales_platform.py) -/

namespace SalesIntelligencePlatform

/-- The first/last-name derivation of `SalesIntelligencePlatform.enrich_lead`
(ai_hardware_sales_platform.py lines 765-770):
`first_name = raw_lead['name'].split()[0]` and
`last_name = raw_lead['name'].split()[-1]`.  A name whose split is empty makes
Python raise `IndexError` (modelled as `none`); a single-token name yields
that token as both first and last name. -/
def first_last (name : String) : Option (String × String) :=
  match splitWs name with
  | [] => none
  | parts@(p :: _) => some (p, parts.getLastD "")

end SalesIntelligencePlatform

example : SalesIntelligencePlatform.first_last "Ahmed Hassan Al Qasimi" =
  some ("Ahmed", "Qasimi") := by decide
example : SalesIntelligencePlatform.first_last "Madonna" =
  some ("Madonna", "Madonna") := by decide
example : ApifyLinkedInScraper.derive_first_last "Madonna" "" "" =
  ("Madonna", "") := by decide

/-! ## ApolloLeadScraper.sync_to_google_sheets (apollo_linkedin_scraper.py) -/

namespace ApolloLeadScraper

/-- Header row written by `sync_to_google_sheets`. -/
def sheetHeaders : List String :=
  ["Name", "Title", "Company", "Location", "Email", "Phone",
   "LinkedIn", "Website", "Score", "Email Status", "Collected", "Notes"]

/-- The row the `SELECT` of `sync_to_google_sheets` produces for a lead. -/
def sheetRow (l : ApolloLead) : List String :=
  [l.name, l.title, l.company_name, l.location_city, l.email, l.phone,
   l.linkedin_url, l.company_website, toString l.lead_score, l.email_status,
   l.collected_date, l.notes]

/-- Insertion step for `ORDER BY lead_score DESC`. -/
def insertByScore (l : ApolloLead) : List ApolloLead → List ApolloLead
  | [] => [l]
  | x :: xs => if x.lead_score < l.lead_score then l :: x :: xs else x :: insertByScore l xs

/-- `ORDER BY lead_score DESC` (the secondary `collected_date DESC` key is a
clock string the model keeps opaque, so rows with equal scores keep their
store order). -/
def orderByScoreDesc (ls : List ApolloLead) : List ApolloLead :=
  ls.foldr insertByScore []

/-- `ApolloLeadScraper.sync_to_google_sheets` (apollo_linkedin_scraper.py
lines 360-421): `sheet.clear()` then `sheet.update('A1', [headers] + rows)` —
the resulting sheet is the header plus a row for EVERY stored lead, and the
previous sheet content (`_sheet`) is discarded entirely. -/
def sync_to_google_sheets (db : List ApolloLead) (_sheet : List (List String)) :
    List (List String) :=
  sheetHeaders :: (orderByScoreDesc db).map sheetRow

end ApolloLeadScraper

/-! # Claims -/

/-- Claim C8: for every numeric lead score, the derived priority tier is Hot
iff the score is at least 90, High iff it is in [80,90), Medium iff it is in
[70,80), and Low iff it is below 70.  `LeadScorer.get_priority` is the
repository's only score-to-tier derivation, and the collector threads every
stored score through it, so every scoring path uses these thresholds. -/
theorem c8_priority_tier_thresholds :
    ∀ s : Nat,
      (LeadScorer.get_priority s = "Hot" ↔ 90 ≤ s) ∧
      (LeadScorer.get_priority s = "High" ↔ 80 ≤ s ∧ s < 90) ∧
      (LeadScorer.get_priority s = "Medium" ↔ 70 ≤ s ∧ s < 80) ∧
      (LeadScorer.get_priority s = "Low" ↔ s < 70) := by
  intro s
  unfold LeadScorer.get_priority
  split_ifs with h1 h2 h3 <;> refine ⟨?_, ?_, ?_, ?_⟩ <;> simp <;> omega

/-- Claim C3: both scoring engines are pure functions of the lead's
attributes — two applications to the same lead give the same value — and the
score always lies in [0,100] (the lower bound is by construction: every
sub-score contributes a non-negative amount, reflected in the `Nat` model). -/
theorem c3_score_deterministic_and_bounded :
    (∀ lead : RtLead,
        LeadScorer.calculate_score lead = LeadScorer.calculate_score lead ∧
        0 ≤ LeadScorer.calculate_score lead ∧
        LeadScorer.calculate_score lead ≤ 100 ∧
        LeadScorer.get_priority (LeadScorer.calculate_score lead) =
          LeadScorer.get_priority (LeadScorer.calculate_score lead)) ∧
    (∀ lead : PlatLead,
        LeadScoringEngine.calculate_score lead = LeadScoringEngine.calculate_score lead ∧
        0 ≤ LeadScoringEngine.calculate_score lead ∧
        LeadScoringEngine.calculate_score lead ≤ 100) := by
  constructor
  · intro lead
    exact ⟨rfl, Nat.zero_le _, Nat.min_le_right _ _, rfl⟩
  · intro lead
    exact ⟨rfl, Nat.zero_le _, Nat.min_le_right _ _⟩

/-- A successful `lookupDomain` returns the domain of a table entry whose key
occurs in the name. -/
theorem lookupDomain_mem {l : List (String × String)} {n d : String}
    (h : EmailGenerator.lookupDomain l n = some d) :
    ∃ kd ∈ l, strHasSub n kd.1 = true ∧ d = kd.2 := by
  induction l with
  | nil => simp [EmailGenerator.lookupDomain] at h
  | cons kd rest ih =>
    obtain ⟨k, dom⟩ := kd
    rw [EmailGenerator.lookupDomain] at h
    by_cases hk : strHasSub n k = true
    · rw [if_pos hk] at h
      exact ⟨(k, dom), by simp, hk, by simpa using h.symm⟩
    · rw [if_neg hk] at h
      obtain ⟨kd, hmem, hsub, hd⟩ := ih h
      exact ⟨kd, by simp [hmem], hsub, hd⟩

/-- Claim C10: `guess_company_domain` is total and never returns an empty
domain: it yields an override-table domain when a known organization key
occurs in the cleaned (lower-cased, suffix-stripped) name, otherwise the first
word of the suffix-stripped name with `.ae` appended, and the fixed fallback
`company.ae` when no words remain — including for the empty string and for
names consisting only of corporate suffixes such as `LLC`. -/
theorem c10_guess_company_domain_total :
    (∀ name : String, EmailGenerator.guess_company_domain name ≠ "") ∧
    (∀ name : String,
        (∃ kd ∈ EmailGenerator.uae_companies,
            strHasSub (EmailGenerator.cleaned_name name) kd.1 = true ∧
            EmailGenerator.guess_company_domain name = kd.2) ∨
        (∃ w ws, splitWs (EmailGenerator.cleaned_name name) = w :: ws ∧
            EmailGenerator.guess_company_domain name = w ++ ".ae") ∨
        (splitWs (EmailGenerator.cleaned_name name) = [] ∧
            EmailGenerator.guess_company_domain name = "company.ae")) ∧
    EmailGenerator.guess_company_domain "LLC" = "company.ae" ∧
    EmailGenerator.guess_company_domain "" = "company.ae" ∧
    EmailGenerator.guess_company_domain "Etisalat Group" = "etisalat.ae" ∧
    EmailGenerator.guess_company_domain "Acme Trading LLC" = "acme.ae" := by
  have hlookup : ∀ name : String,
      EmailGenerator.guess_company_domain name =
        match EmailGenerator.lookupDomain EmailGenerator.uae_companies
            (EmailGenerator.cleaned_name name) with
        | some domain => domain
        | none =>
          match splitWs (EmailGenerator.cleaned_name name) with
          | [] => "company.ae"
          | w :: _ => w ++ ".ae" := fun _ => rfl
  refine ⟨?_, ?_, by decide, by decide, by decide, by decide⟩
  · intro name
    rw [hlookup]
    cases hl : EmailGenerator.lookupDomain EmailGenerator.uae_companies
        (EmailGenerator.cleaned_name name) with
    | some d =>
      obtain ⟨kd, hmem, _, hd⟩ := lookupDomain_mem hl
      subst hd
      have hne : ∀ kd ∈ EmailGenerator.uae_companies, kd.2 ≠ "" := by decide
      exact hne kd hmem
    | none =>
      cases hs : splitWs (EmailGenerator.cleaned_name name) with
      | nil => decide
      | cons w ws =>
        intro heq
        have hlen := congrArg String.length heq
        rw [String.length_append] at hlen
        have h3 : String.length ".ae" = 3 := rfl
        have h0 : String.length "" = 0 := rfl
        omega
  · intro name
    rw [hlookup]
    cases hl : EmailGenerator.lookupDomain EmailGenerator.uae_companies
        (EmailGenerator.cleaned_name name) with
    | some d =>
      obtain ⟨kd, hmem, hsub, hd⟩ := lookupDomain_mem hl
      exact Or.inl ⟨kd, hmem, hsub, hd⟩
    | none =>
      cases hs : splitWs (EmailGenerator.cleaned_name name) with
      | nil => exact Or.inr (Or.inr ⟨rfl, rfl⟩)
      | cons w ws => exact Or.inr (Or.inl ⟨w, ws, rfl, rfl⟩)

/-! ## Claim C4: WhatsApp inference -/

/-- Oracle for the C4 scenario: the scrape finds a name, title and company. -/
def c4Scrape : String → Option ProfileData := fun _ =>
  some { name := "Test User", title := "IT Manager", company := "Acme", location := "Sharjah" }

/-- Oracle for the C4 scenario: the company website is found. -/
def c4FindSite : String → Option String := fun _ => some "https://acme.example"

/-- Oracle for the C4 scenario: the website yields one landline phone that
contains the digit 5 but is not written with the `+971` country code. -/
def c4Contacts : String → List String × List String := fun _ => ([], ["06 555 1234"])

/-- Claim C4 counterexample: the realtime collector gives the phone
`"06 555 1234"` — a number that does not carry the `+971` country-code
prefix — a WhatsApp value, because its heuristic only asks whether the digit
`5` occurs anywhere in the phone.  This refutes "a phone number not of that
shape is never given a WhatsApp value". -/
theorem c4_counterexample :
    (DailyLeadCollector.enrich_lead c4Scrape c4FindSite c4Contacts
        "https://linkedin.com/in/test").map (fun l => l.whatsapp) =
      some "06 555 1234" ∧
    strStarts "06 555 1234" "+971" = false := by decide

/-- Claim C4 as amended: the two WhatsApp paths use different heuristics, and
neither matches the claimed shape exactly.  `ContactEnrichment.find_whatsapp`
marks a phone WhatsApp-capable iff it starts with `+971` AND the character `5`
occurs among the two characters following that prefix (so `+9712 5...`-shaped
numbers whose operator digit is not 5 also qualify); the realtime collector
marks the first scraped phone WhatsApp-capable iff it contains the character
`5` anywhere, with no country-code check at all.  In both paths the WhatsApp
value, when present, is the phone itself. -/
theorem c4_whatsapp_heuristics_amended :
    (∀ phone : String,
        ContactEnrichment.find_whatsapp phone = none ∨
        ContactEnrichment.find_whatsapp phone = some phone) ∧
    (∀ phone : String,
        (ContactEnrichment.find_whatsapp phone).isSome =
          (strStarts phone "+971" && strHasSub (strSlice phone 4 6) "5")) ∧
    (∀ phone : String,
        DailyLeadCollector.whatsapp_of_phone phone = "" ∨
        DailyLeadCollector.whatsapp_of_phone phone = phone) ∧
    (∀ phone : String,
        DailyLeadCollector.whatsapp_of_phone phone ≠ "" ↔
          strHasSub phone "5" = true) := by
  refine ⟨?_, ?_, ?_, ?_⟩
  · intro phone
    unfold ContactEnrichment.find_whatsapp
    split_ifs <;> simp
  · intro phone
    by_cases hp : phone = ""
    · subst hp; decide
    · unfold ContactEnrichment.find_whatsapp
      by_cases hst : strStarts phone "+971" = true
      · by_cases h5 : strHasSub (strSlice phone 4 6) "5" = true
        · simp [hp, hst, h5]
        · simp [hp, hst, h5]
      · simp [hp, hst]
  · intro phone
    unfold DailyLeadCollector.whatsapp_of_phone
    split_ifs <;> simp
  · intro phone
    unfold DailyLeadCollector.whatsapp_of_phone
    by_cases h : strHasSub phone "5" = true
    · rw [if_pos h]
      simp only [h, iff_true]
      intro hempty
      subst hempty
      simp [strHasSub, listHasSub] at h
    · rw [if_neg h]
      simp [h]

/-! ## Claim C5: title-seniority bands -/

/-- Every band list whose values are bounded by `v` has `maxMatchedBand ≤ v`. -/
theorem maxMatchedBand_le {t : String} {v : Nat} :
    ∀ {bands : List (List String × Nat)}, (∀ b ∈ bands, b.2 ≤ v) →
      maxMatchedBand t bands ≤ v := by
  intro bands
  induction bands with
  | nil => intro _; exact Nat.zero_le v
  | cons b rest ih =>
    intro h
    rw [maxMatchedBand]
    split_ifs
    · exact max_le (h b (by simp)) (ih fun b2 hb2 => h b2 (by simp [hb2]))
    · exact ih fun b2 hb2 => h b2 (by simp [hb2])

/-- Each band's value dominates every later band's value (the band list is
sorted most-valuable-first). -/
def headDominates : List (List String × Nat) → Prop
  | [] => True
  | b :: rest => (∀ b2 ∈ rest, b2.2 ≤ b.2) ∧ headDominates rest

instance : DecidablePred headDominates := fun l => by
  induction l with
  | nil => exact isTrue trivial
  | cons b rest ih =>
    rw [headDominates]
    exact @instDecidableAnd _ _ _ ih

/-- On a band list sorted most-valuable-first, first-match-wins equals
highest-matching-band-wins. -/
theorem bandScore_eq_maxMatchedBand {t : String} :
    ∀ {bands : List (List String × Nat)}, headDominates bands →
      bandScore t bands = maxMatchedBand t bands := by
  intro bands
  induction bands with
  | nil => intro _; rfl
  | cons b rest ih =>
    intro h
    rw [bandScore, maxMatchedBand]
    split_ifs
    · exact (Nat.max_eq_left (maxMatchedBand_le h.1)).symm
    · exact ih h.2

/-- Claim C5 counterexample: in `LeadScoringEngine.calculate_score` the
`title_scores` dict checks Manager (15 points) before Head (20 points), so the
title "Head of IT and Facilities Manager" — which contains keywords of both
the higher-value Head band and the lower-value Manager band — receives 15, the
LOWER band's points, not the claimed higher 20. -/
theorem c5_counterexample :
    bandScore (lowerStr "Head of IT and Facilities Manager") platTitleBands = 15 ∧
    strHasSub (lowerStr "Head of IT and Facilities Manager") "head" = true ∧
    strHasSub (lowerStr "Head of IT and Facilities Manager") "manager" = true ∧
    (["head"], 20) ∈ platTitleBands ∧
    maxMatchedBand (lowerStr "Head of IT and Facilities Manager") platTitleBands = 20 ∧
    LeadScoringEngine.calculate_score { job_title := "Head of IT and Facilities Manager" } = 15 := by
  decide

/-- Claim C5 as amended: every title sub-score is decided by an ordered band
list, checked first-match-wins with no double counting (the result is always a
single band value, never a sum).  In the realtime, Apollo and Apify scorers
the list is ordered most-senior-first, so the highest matching band wins; in
the ai_hardware `LeadScoringEngine` the dict order is NOT sorted by value —
Head (20) comes after Manager (15) — so a title matching both receives the
lower Manager value (15, while the highest matching band is worth 20). -/
theorem c5_title_bands_amended :
    (∀ t, bandScore t rtTitleBands = maxMatchedBand t rtTitleBands) ∧
    (∀ t, bandScore t apolloTitleBands = maxMatchedBand t apolloTitleBands) ∧
    (∀ t, bandScore t apifyTitleBands = maxMatchedBand t apifyTitleBands) ∧
    (∀ t, bandScore t platTitleBands ∈ ([0, 15, 20, 25, 30] : List Nat)) ∧
    bandScore (lowerStr "Head Manager") platTitleBands = 15 ∧
    maxMatchedBand (lowerStr "Head Manager") platTitleBands = 20 := by
  refine ⟨?_, ?_, ?_, ?_, by decide, by decide⟩
  · intro t; exact bandScore_eq_maxMatchedBand (by decide)
  · intro t; exact bandScore_eq_maxMatchedBand (by decide)
  · intro t; exact bandScore_eq_maxMatchedBand (by decide)
  · intro t
    rw [show platTitleBands = [(["cto"], 30), (["cio"], 30), (["vp"], 25),
      (["director"], 20), (["manager"], 15), (["head"], 20)] from rfl]
    rw [bandScore]
    split_ifs
    · simp
    all_goals rw [bandScore]; split_ifs
    · simp
    all_goals rw [bandScore]; split_ifs
    · simp
    all_goals rw [bandScore]; split_ifs
    · simp
    all_goals rw [bandScore]; split_ifs
    · simp
    all_goals rw [bandScore]; split_ifs
    · simp
    all_goals rw [bandScore]; simp

/-! ## Claim C9: full-name splitting -/

/-- Claim C9 counterexample: on the single-token name "Madonna" the
ai_hardware enrichment path (`first_name = name.split()[0]`,
`last_name = name.split()[-1]`) derives the last name "Madonna", not the
empty string the claim requires. -/
theorem c9_counterexample :
    SalesIntelligencePlatform.first_last "Madonna" = some ("Madonna", "Madonna") ∧
    ("Madonna" : String) ≠ "" := by decide

/-- Claim C9 as amended: all three normalization paths take the first
whitespace token as first name and the last token as last name when the full
name has at least two tokens, but they differ on single-token names: the Apify
path derives an empty last name (as the claim states), the ai_hardware path
derives the token itself as the last name, and the realtime collector path
performs no derivation at all (it only splits names with two or more
tokens). -/
theorem c9_name_split_amended :
    (∀ full p ps, splitWs full = p :: ps → ps ≠ [] →
        ApifyLinkedInScraper.derive_first_last full "" "" = (p, (p :: ps).getLastD "")) ∧
    (∀ full t, splitWs full = [t] →
        ApifyLinkedInScraper.derive_first_last full "" "" = (t, "")) ∧
    (∀ name p ps, splitWs name = p :: ps →
        SalesIntelligencePlatform.first_last name = some (p, (p :: ps).getLastD "")) ∧
    (∀ name t, splitWs name = [t] →
        SalesIntelligencePlatform.first_last name = some (t, t)) ∧
    (∀ name t, splitWs name = [t] →
        DailyLeadCollector.first_last name = none) ∧
    (∀ name p ps, splitWs name = p :: ps → ps ≠ [] →
        DailyLeadCollector.first_last name = some (p, (p :: ps).getLastD "")) := by
  have hne : ∀ (full : String) (p : String) (ps : List String),
      splitWs full = p :: ps → full ≠ "" := by
    intro full p ps h hfull
    subst hfull
    simp [splitWs, splitWsAux] at h
  refine ⟨?_, ?_, ?_, ?_, ?_, ?_⟩
  · intro full p ps h hps
    unfold ApifyLinkedInScraper.derive_first_last
    rw [if_pos ⟨rfl, hne full p ps h⟩, h]
    have hlen : (p :: ps).length > 1 := by
      have := List.length_pos.mpr hps
      simp only [List.length_cons]
      omega
    simp [hlen]
    exact fun h' => absurd h' hps
  · intro full t h
    unfold ApifyLinkedInScraper.derive_first_last
    rw [if_pos ⟨rfl, hne full t [] h⟩, h]
    simp
  · intro name p ps h
    unfold SalesIntelligencePlatform.first_last
    rw [h]
  · intro name t h
    unfold SalesIntelligencePlatform.first_last
    rw [h]
    simp
  · intro name t h
    unfold DailyLeadCollector.first_last
    rw [h]
    simp
  · intro name p ps h hps
    unfold DailyLeadCollector.first_last
    rw [h]
    have hlen : (p :: ps).length ≥ 2 := by
      have := List.length_pos.mpr hps
      simp only [List.length_cons]
      omega
    rw [if_pos hlen]
    simp

/-- Witness for the amended C9 theorem at concrete names. -/
theorem c9_name_split_amended_witness :
    ApifyLinkedInScraper.derive_first_last "Ahmed Hassan" "" "" = ("Ahmed", "Hassan") ∧
    ApifyLinkedInScraper.derive_first_last "Cher" "" "" = ("Cher", "") ∧
    SalesIntelligencePlatform.first_last "Ahmed Hassan" = some ("Ahmed", "Hassan") ∧
    SalesIntelligencePlatform.first_last "Cher" = some ("Cher", "Cher") ∧
    DailyLeadCollector.first_last "Cher" = none ∧
    DailyLeadCollector.first_last "Ahmed Hassan" = some ("Ahmed", "Hassan") :=
  ⟨c9_name_split_amended.1 "Ahmed Hassan" "Ahmed" ["Hassan"] (by decide) (by decide),
   c9_name_split_amended.2.1 "Cher" "Cher" (by decide),
   c9_name_split_amended.2.2.1 "Ahmed Hassan" "Ahmed" ["Hassan"] (by decide),
   c9_name_split_amended.2.2.2.1 "Cher" "Cher" (by decide),
   c9_name_split_amended.2.2.2.2.1 "Cher" "Cher" (by decide),
   c9_name_split_amended.2.2.2.2.2 "Ahmed Hassan" "Ahmed" ["Hassan"] (by decide) (by decide)⟩

/-! ## Claim C6: rate-limit retry behaviour -/

/-- A source that answers every request with HTTP 429. -/
def alwaysRateLimited : Nat → ApolloResp := fun _ => { status := 429 }

/-- A source that answers 429 to the first `n` requests and 200 afterwards. -/
def rateLimitedUntil (n : Nat) : Nat → ApolloResp := fun k =>
  if k < n then { status := 429 } else { status := 200, page := 1, total_pages := 1 }

/-- A source that always fails with HTTP 500. -/
def alwaysServerError : Nat → ApolloResp := fun _ => { status := 500 }

set_option maxRecDepth 4000 in
/-- Claim C6 counterexample: against a source that keeps returning HTTP 429,
`search_people` is still retrying after 100 requests (there is no retry
ceiling it could have hit); and when the source rate-limits the first ten
requests, the total time slept is 10 × 60 = 600 seconds — a constant 60-second
wait per retry, not an exponential backoff. -/
theorem c6_counterexample :
    ApolloLeadScraper.search_people alwaysRateLimited 0 100 = none ∧
    ApolloLeadScraper.search_people (rateLimitedUntil 10) 0 100 =
      some (([], 1, 1), 600) := by decide

/-- Claim C6 as amended: on HTTP 429 the adapter sleeps a constant 60 seconds
and retries the same query, unboundedly — there is no exponential growth, no
single-wait cap and no maximum retry count, so the fetch does not terminate
while the source keeps returning 429 (no unfolding depth suffices).  After `n`
rate-limited responses followed by a success it returns the payload having
slept exactly `60 * n` seconds; any status other than 200 and 429 returns the
empty result at once without retrying. -/
theorem c6_retry_unbounded_amended :
    (∀ fuel k, ApolloLeadScraper.search_people alwaysRateLimited k fuel = none) ∧
    (∀ n, ApolloLeadScraper.search_people (rateLimitedUntil n) 0 (n + 1) =
        some (([], 1, 1), 60 * n)) ∧
    (∀ k fuel, ApolloLeadScraper.search_people alwaysServerError k (fuel + 1) =
        some (([], 0, 0), 0)) := by
  refine ⟨?_, ?_, ?_⟩
  · intro fuel
    induction fuel with
    | zero => intro k; rfl
    | succ n ih =>
      intro k
      rw [ApolloLeadScraper.search_people]
      simp [alwaysRateLimited, ih]
  · have key : ∀ d k, ApolloLeadScraper.search_people (rateLimitedUntil (k + d)) k (d + 1) =
        some (([], 1, 1), 60 * d) := by
      intro d
      induction d with
      | zero =>
        intro k
        rw [ApolloLeadScraper.search_people]
        simp [rateLimitedUntil]
      | succ m ih =>
        intro k
        rw [ApolloLeadScraper.search_people]
        have hk : k < k + (m + 1) := by omega
        have hrec := ih (k + 1)
        rw [show k + 1 + m = k + (m + 1) by omega] at hrec
        simp [rateLimitedUntil, hk, hrec]
        ring
    intro n
    have := key n 0
    simpa using this
  · intro k fuel
    rw [ApolloLeadScraper.search_people]
    simp [alwaysServerError]

/-! ## Claim C1: dedup store invariant -/

/-- `is_duplicate` agrees with membership of the url among the stored keys. -/
theorem rt_is_duplicate_iff (db : List RtLead) (url : String) :
    LeadDatabase.is_duplicate db url = true ↔ url ∈ LeadDatabase.keys db := by
  simp [LeadDatabase.is_duplicate, LeadDatabase.keys, List.any_eq_true, List.mem_map]

/-- One realtime insert preserves distinctness of the stored keys. -/
theorem rt_insert_preserves_nodup (today : String) (db : List RtLead) (c : RtLead)
    (h : (LeadDatabase.keys db).Nodup) :
    (LeadDatabase.keys (LeadDatabase.insert_lead today db c).1).Nodup := by
  unfold LeadDatabase.insert_lead
  by_cases hd : LeadDatabase.is_duplicate db c.linkedin_url = true
  · rw [if_pos hd]; exact h
  · rw [if_neg hd]
    have hnotin : c.linkedin_url ∉ LeadDatabase.keys db := by
      intro hmem
      exact hd ((rt_is_duplicate_iff db c.linkedin_url).mpr hmem)
    simp only [LeadDatabase.keys, List.map_append, List.map_cons, List.map_nil]
    rw [List.nodup_append]
    refine ⟨h, List.nodup_singleton _, ?_⟩
    intro a ha hb
    simp at hb
    rw [hb] at ha
    exact hnotin ha

/-- Apify `is_duplicate` agrees with key membership. -/
theorem apify_is_duplicate_iff (db : List ApifyLead) (url : String) :
    ApifyLinkedInScraper.is_duplicate db url = true ↔
      url ∈ db.map (fun l => l.linkedin_url) := by
  simp [ApifyLinkedInScraper.is_duplicate, List.any_eq_true, List.mem_map]

/-- One Apify save preserves distinctness of the stored keys. -/
theorem apify_save_preserves_nodup (db : List ApifyLead) (c : ApifyLead)
    (h : (db.map (fun l => l.linkedin_url)).Nodup) :
    (((ApifyLinkedInScraper.save_lead db c).1).map (fun l => l.linkedin_url)).Nodup := by
  unfold ApifyLinkedInScraper.save_lead
  by_cases hd : ApifyLinkedInScraper.is_duplicate db c.linkedin_url = true
  · rw [if_pos hd]; exact h
  · rw [if_neg hd]
    have hnotin : c.linkedin_url ∉ db.map (fun l => l.linkedin_url) := by
      intro hmem
      exact hd ((apify_is_duplicate_iff db c.linkedin_url).mpr hmem)
    simp only [List.map_append, List.map_cons, List.map_nil]
    rw [List.nodup_append]
    refine ⟨h, List.nodup_singleton _, ?_⟩
    intro a ha hb
    simp at hb
    rw [hb] at ha
    exact hnotin ha

/-- A fold that preserves a predicate preserves it over a whole list. -/
theorem foldl_preserves {α β : Type} {P : α → Prop} {f : α → β → α}
    (hf : ∀ a b, P a → P (f a b)) :
    ∀ (l : List β) (a : α), P a → P (l.foldl f a) := by
  intro l
  induction l with
  | nil => intro a h; exact h
  | cons b l ih => intro a h; exact ih (f a b) (hf a b h)

/-- Claim C1: the stores keep at most one record per identity key (the
LinkedIn profile url for the realtime store, likewise for the Apify store):
processing any sequence of candidates through the insert path keeps the
stored keys pairwise distinct, and inserting a candidate whose key is already
stored leaves the store unchanged and reports a non-new outcome
(`insert_lead` returns `None`, `save_lead` returns `False`). -/
theorem c1_dedup_store_invariant :
    (∀ (today : String) (cs db0 : List RtLead),
        (LeadDatabase.keys db0).Nodup →
        (LeadDatabase.keys
          (cs.foldl (fun db c => (LeadDatabase.insert_lead today db c).1) db0)).Nodup) ∧
    (∀ (today : String) (db : List RtLead) (lead : RtLead),
        lead.linkedin_url ∈ LeadDatabase.keys db →
        LeadDatabase.insert_lead today db lead = (db, none)) ∧
    (∀ (cs db0 : List ApifyLead),
        (db0.map (fun l => l.linkedin_url)).Nodup →
        ((cs.foldl (fun db c => (ApifyLinkedInScraper.save_lead db c).1) db0).map
          (fun l => l.linkedin_url)).Nodup) ∧
    (∀ (db : List ApifyLead) (lead : ApifyLead),
        lead.linkedin_url ∈ db.map (fun l => l.linkedin_url) →
        ApifyLinkedInScraper.save_lead db lead = (db, false)) := by
  refine ⟨?_, ?_, ?_, ?_⟩
  · intro today cs db0 h
    exact foldl_preserves (fun db c => rt_insert_preserves_nodup today db c) cs db0 h
  · intro today db lead hmem
    unfold LeadDatabase.insert_lead
    rw [if_pos ((rt_is_duplicate_iff db lead.linkedin_url).mpr hmem)]
  · intro cs db0 h
    exact foldl_preserves (fun db c => apify_save_preserves_nodup db c) cs db0 h
  · intro db lead hmem
    unfold ApifyLinkedInScraper.save_lead
    rw [if_pos ((apify_is_duplicate_iff db lead.linkedin_url).mpr hmem)]

/-- A lead used by the C1 witness. -/
def c1LeadA : RtLead := { name := "A", linkedin_url := "https://linkedin.com/in/key" }

/-- A different candidate with the same identity key as `c1LeadA`. -/
def c1LeadB : RtLead := { name := "B", linkedin_url := "https://linkedin.com/in/key" }

/-- An Apify lead used by the C1 witness. -/
def c1ApifyA : ApifyLead := { name := "A", linkedin_url := "https://linkedin.com/in/key" }

/-- A different Apify candidate with the same identity key as `c1ApifyA`. -/
def c1ApifyB : ApifyLead := { name := "B", linkedin_url := "https://linkedin.com/in/key" }

/-- Witness for C1 at concrete stores: inserting the same identity key twice
keeps the keys distinct, and re-inserting it into a store that holds it
leaves the store unchanged with the non-new outcome. -/
theorem c1_dedup_store_invariant_witness :
    (LeadDatabase.keys
      ([c1LeadA, c1LeadB].foldl
        (fun db c => (LeadDatabase.insert_lead "2026-10-12" db c).1) [])).Nodup ∧
    LeadDatabase.insert_lead "2026-10-12" [c1LeadA] c1LeadB = ([c1LeadA], none) ∧
    (([c1ApifyA, c1ApifyB].foldl
        (fun db c => (ApifyLinkedInScraper.save_lead db c).1) []).map
      (fun l => l.linkedin_url)).Nodup ∧
    ApifyLinkedInScraper.save_lead [c1ApifyA] c1ApifyB = ([c1ApifyA], false) :=
  ⟨c1_dedup_store_invariant.1 "2026-10-12" [c1LeadA, c1LeadB] [] (by decide),
   c1_dedup_store_invariant.2.1 "2026-10-12" [c1LeadA] c1LeadB (by decide),
   c1_dedup_store_invariant.2.2.1 [c1ApifyA, c1ApifyB] [] (by decide),
   c1_dedup_store_invariant.2.2.2 [c1ApifyA] c1ApifyB (by decide)⟩

/-! ## Claim C7: run termination and the target bound -/

/-- One inner-loop step of the realtime collector never pushes the run delta
past the target. -/
theorem processUrl_delta_le (today : String) (scrape : String → Option ProfileData)
    (find_site : String → Option String)
    (contacts : String → List String × List String) (target : Nat) :
    ∀ (st : DailyLeadCollector.RunState) (url : String),
      st.new_leads.length ≤ target →
      (DailyLeadCollector.processUrl today scrape find_site contacts target
        st url).new_leads.length ≤ target := by
  intro st url h
  unfold DailyLeadCollector.processUrl
  by_cases hguard : st.new_leads.length ≥ target
  · rw [if_pos hguard]; exact h
  · rw [if_neg hguard]
    have hlt : st.new_leads.length < target := Nat.lt_of_not_le hguard
    by_cases hdup : LeadDatabase.is_duplicate st.db url = true
    · simp only [hdup, if_true]; exact h
    · simp only [hdup, if_false, Bool.false_eq_true]
      cases henr : DailyLeadCollector.enrich_lead scrape find_site contacts url with
      | none => exact h
      | some lead =>
        dsimp only
        by_cases hname : lead.name = ""
        · rw [if_neg (not_not_intro hname)]; exact h
        · rw [if_pos hname]
          cases hins : LeadDatabase.insert_lead today st.db lead with
          | mk db' r =>
            cases r with
            | some rowid =>
              dsimp only
              simp only [List.length_append, List.length_cons, List.length_nil]
              omega
            | none => exact h

/-- One step of the Apify collection loop never pushes the accepted count past
the target. -/
theorem processProfile_count_le (now : String) (target : Nat) :
    ∀ (st : ApifyLinkedInScraper.RunState) (p : ApifyProfile),
      st.leads_collected ≤ target →
      (ApifyLinkedInScraper.processProfile now target st p).leads_collected ≤ target := by
  intro st p h
  unfold ApifyLinkedInScraper.processProfile
  by_cases hguard : st.leads_collected ≥ target
  · rw [if_pos hguard]; exact h
  · rw [if_neg hguard]
    have hlt : st.leads_collected < target := Nat.lt_of_not_le hguard
    cases hp : ApifyLinkedInScraper.process_profile now st.db p with
    | none => exact h
    | some lead =>
      dsimp only
      cases hs : ApifyLinkedInScraper.save_lead st.db lead with
      | mk db' ok =>
        cases ok with
        | true => dsimp only; omega
        | false => exact h

/-- Claim C7: both collection runs are total functions of their (finite)
source inputs — every run terminates — and a run ends with the accepted-lead
count at most the target, in one of exactly three ways: the target was
reached, the realtime attempts ceiling `target * 3` was reached, or the whole
query queue / profile list was consumed without hitting either ceiling. -/
theorem c7_run_terminates_bounded :
    (∀ (today : String) (search : String × String → List String)
        (scrape : String → Option ProfileData)
        (find_site : String → Option String)
        (contacts : String → List String × List String)
        (target : Nat) (db0 : List RtLead) (searches : List (String × String)),
        (DailyLeadCollector.collect_daily_leads today search scrape find_site
            contacts target db0 searches).new_leads.length ≤ target ∧
        ((DailyLeadCollector.collect_daily_leads today search scrape find_site
            contacts target db0 searches).new_leads.length = target ∨
         (DailyLeadCollector.collect_daily_leads today search scrape find_site
            contacts target db0 searches).attempts ≥ target * 3 ∨
         ((DailyLeadCollector.collect_daily_leads today search scrape find_site
            contacts target db0 searches).new_leads.length < target ∧
          (DailyLeadCollector.collect_daily_leads today search scrape find_site
            contacts target db0 searches).attempts < target * 3))) ∧
    (∀ (now : String) (target : Nat) (db0 : List ApifyLead)
        (profiles : List ApifyProfile),
        (ApifyLinkedInScraper.run_daily_collection now target db0
            profiles).leads_collected ≤ target) := by
  constructor
  · intro today search scrape find_site contacts target db0 searches
    have hle : (DailyLeadCollector.collect_daily_leads today search scrape
        find_site contacts target db0 searches).new_leads.length ≤ target := by
      unfold DailyLeadCollector.collect_daily_leads
      apply foldl_preserves
        (P := fun st : DailyLeadCollector.RunState => st.new_leads.length ≤ target)
      · intro st q hst
        by_cases hguard : st.new_leads.length ≥ target ∨ st.attempts ≥ target * 3
        · rw [if_pos hguard]; exact hst
        · rw [if_neg hguard]
          exact foldl_preserves
            (processUrl_delta_le today scrape find_site contacts target)
            (search q) st hst
      · exact Nat.zero_le target
    exact ⟨hle, by omega⟩
  · intro now target db0 profiles
    unfold ApifyLinkedInScraper.run_daily_collection
    apply foldl_preserves
      (P := fun st : ApifyLinkedInScraper.RunState => st.leads_collected ≤ target)
    · exact processProfile_count_le now target
    · exact Nat.zero_le target

/-! ## Claim C2: re-run behaviour and the sync sink -/

namespace ApolloLeadScraper

/-- The stored identity keys of the Apollo store. -/
def keys (db : List ApolloLead) : List String := db.map (fun l => l.apollo_id)

end ApolloLeadScraper

/-- Apollo `is_duplicate` agrees with key membership. -/
theorem apollo_is_duplicate_iff (db : List ApolloLead) (pid : String) :
    ApolloLeadScraper.is_duplicate db pid = true ↔ pid ∈ ApolloLeadScraper.keys db := by
  simp [ApolloLeadScraper.is_duplicate, ApolloLeadScraper.keys, List.any_eq_true,
    List.mem_map]

/-- One collection step only ever adds keys to the store. -/
theorem processPerson_keys_mono (now : String) (target : Nat)
    (st : ApolloLeadScraper.RunState) (p : ApolloPerson) :
    ApolloLeadScraper.keys st.db ⊆
      ApolloLeadScraper.keys (ApolloLeadScraper.processPerson now target st p).db := by
  unfold ApolloLeadScraper.processPerson
  by_cases hguard : st.leads_collected ≥ target
  · rw [if_pos hguard]
    exact fun k hk => hk
  · rw [if_neg hguard]
    by_cases hdup : ApolloLeadScraper.is_duplicate st.db p.id = true
    · simp only [hdup, if_true]
      exact fun k hk => hk
    · simp only [hdup, if_false, Bool.false_eq_true]
      unfold ApolloLeadScraper.save_lead
      by_cases hsave : ApolloLeadScraper.is_duplicate st.db
          (ApolloLeadScraper.extract_lead_data now p).apollo_id = true
      · simp only [hsave, if_true]
        exact fun k hk => hk
      · simp only [hsave, if_false, Bool.false_eq_true]
        intro k hk
        simp only [ApolloLeadScraper.keys, List.map_append] at hk ⊢
        exact List.mem_append_left _ hk

/-- One collection step never decreases the accepted count. -/
theorem processPerson_collected_mono (now : String) (target : Nat)
    (st : ApolloLeadScraper.RunState) (p : ApolloPerson) :
    st.leads_collected ≤
      (ApolloLeadScraper.processPerson now target st p).leads_collected := by
  unfold ApolloLeadScraper.processPerson
  by_cases hguard : st.leads_collected ≥ target
  · rw [if_pos hguard]
  · rw [if_neg hguard]
    by_cases hdup : ApolloLeadScraper.is_duplicate st.db p.id = true
    · simp only [hdup, if_true]
      exact Nat.le_refl _
    · simp only [hdup, if_false, Bool.false_eq_true]
      unfold ApolloLeadScraper.save_lead
      by_cases hsave : ApolloLeadScraper.is_duplicate st.db
          (ApolloLeadScraper.extract_lead_data now p).apollo_id = true
      · simp only [hsave, if_true]
        exact Nat.le_refl _
      · simp only [hsave, if_false, Bool.false_eq_true]
        omega

/-- Folding collection steps only ever adds keys. -/
theorem foldPeople_keys_mono (now : String) (target : Nat) :
    ∀ (ppl : List ApolloPerson) (st : ApolloLeadScraper.RunState),
      ApolloLeadScraper.keys st.db ⊆
        ApolloLeadScraper.keys
          (ppl.foldl (ApolloLeadScraper.processPerson now target) st).db := by
  intro ppl
  induction ppl with
  | nil => intro st; exact fun k hk => hk
  | cons p rest ih =>
    intro st
    exact (processPerson_keys_mono now target st p).trans
      (ih (ApolloLeadScraper.processPerson now target st p))

/-- Folding collection steps never decreases the accepted count. -/
theorem foldPeople_collected_mono (now : String) (target : Nat) :
    ∀ (ppl : List ApolloPerson) (st : ApolloLeadScraper.RunState),
      st.leads_collected ≤
        (ppl.foldl (ApolloLeadScraper.processPerson now target) st).leads_collected := by
  intro ppl
  induction ppl with
  | nil => intro st; exact Nat.le_refl _
  | cons p rest ih =>
    intro st
    exact (processPerson_collected_mono now target st p).trans
      (ih (ApolloLeadScraper.processPerson now target st p))

/-- If a person's step left the accepted count below the target, that person's
key is stored afterwards (the step either hit the duplicate check or saved the
extracted lead, whose key is the person's id). -/
theorem processPerson_covers (now : String) (target : Nat)
    (st : ApolloLeadScraper.RunState) (p : ApolloPerson)
    (h : (ApolloLeadScraper.processPerson now target st p).leads_collected < target) :
    p.id ∈ ApolloLeadScraper.keys
      (ApolloLeadScraper.processPerson now target st p).db := by
  revert h
  unfold ApolloLeadScraper.processPerson
  by_cases hguard : st.leads_collected ≥ target
  · rw [if_pos hguard]
    intro h
    omega
  · rw [if_neg hguard]
    by_cases hdup : ApolloLeadScraper.is_duplicate st.db p.id = true
    · simp only [hdup, if_true]
      intro _
      exact (apollo_is_duplicate_iff st.db p.id).mp hdup
    · simp only [hdup, if_false, Bool.false_eq_true]
      unfold ApolloLeadScraper.save_lead
      by_cases hsave : ApolloLeadScraper.is_duplicate st.db
          (ApolloLeadScraper.extract_lead_data now p).apollo_id = true
      · simp only [hsave, if_true]
        intro _
        exact (apollo_is_duplicate_iff st.db _).mp hsave
      · simp only [hsave, if_false, Bool.false_eq_true]
        intro _
        simp only [ApolloLeadScraper.keys, List.map_append, List.mem_append,
          List.map_cons, List.map_nil, List.mem_singleton]
        exact Or.inr rfl

/-- If a run ended below its target, every person the source produced has a
stored key when the run finishes (the run processed the whole stream). -/
theorem run_covers_all (now : String) (target : Nat) (db0 : List ApolloLead)
    (ppl : List ApolloPerson)
    (h : (ApolloLeadScraper.run_daily_collection now target db0 ppl).leads_collected
          < target) :
    ∀ p ∈ ppl, p.id ∈ ApolloLeadScraper.keys
      (ApolloLeadScraper.run_daily_collection now target db0 ppl).db := by
  intro p hp
  obtain ⟨l1, l2, rfl⟩ := List.append_of_mem hp
  unfold ApolloLeadScraper.run_daily_collection at h ⊢
  rw [List.foldl_append, List.foldl_cons] at h ⊢
  set mid := l1.foldl (ApolloLeadScraper.processPerson now target)
    (⟨db0, 0, [], 0⟩ : ApolloLeadScraper.RunState) with hmid
  have hstep : (ApolloLeadScraper.processPerson now target mid p).leads_collected
      < target := by
    have := foldPeople_collected_mono now target l2
      (ApolloLeadScraper.processPerson now target mid p)
    omega
  exact foldPeople_keys_mono now target l2
    (ApolloLeadScraper.processPerson now target mid p)
    (processPerson_covers now target mid p hstep)

/-- A step on a person whose key is already stored changes nothing except the
processed counter. -/
theorem processPerson_dup_frozen (now : String) (target : Nat)
    (st : ApolloLeadScraper.RunState) (p : ApolloPerson)
    (hmem : p.id ∈ ApolloLeadScraper.keys st.db) :
    (ApolloLeadScraper.processPerson now target st p).db = st.db ∧
    (ApolloLeadScraper.processPerson now target st p).new_leads = st.new_leads ∧
    (ApolloLeadScraper.processPerson now target st p).leads_collected =
      st.leads_collected := by
  unfold ApolloLeadScraper.processPerson
  by_cases hguard : st.leads_collected ≥ target
  · rw [if_pos hguard]
    exact ⟨rfl, rfl, rfl⟩
  · rw [if_neg hguard]
    rw [if_pos ((apollo_is_duplicate_iff st.db p.id).mpr hmem)]
    exact ⟨rfl, rfl, rfl⟩

/-- Folding a stream of already-stored people leaves store, delta and count
unchanged. -/
theorem foldPeople_all_dup (now : String) (target : Nat) :
    ∀ (ppl : List ApolloPerson) (st : ApolloLeadScraper.RunState),
      (∀ p ∈ ppl, p.id ∈ ApolloLeadScraper.keys st.db) →
      (ppl.foldl (ApolloLeadScraper.processPerson now target) st).db = st.db ∧
      (ppl.foldl (ApolloLeadScraper.processPerson now target) st).new_leads =
        st.new_leads ∧
      (ppl.foldl (ApolloLeadScraper.processPerson now target) st).leads_collected =
        st.leads_collected := by
  intro ppl
  induction ppl with
  | nil => intro st _; exact ⟨rfl, rfl, rfl⟩
  | cons p rest ih =>
    intro st h
    obtain ⟨hdb, hnew, hcol⟩ :=
      processPerson_dup_frozen now target st p (h p (by simp))
    rw [List.foldl_cons]
    obtain ⟨hdb2, hnew2, hcol2⟩ :=
      ih (ApolloLeadScraper.processPerson now target st p)
        (fun q hq => by rw [hdb]; exact h q (by simp [hq]))
    rw [hdb2, hnew2, hcol2, hdb, hnew, hcol]
    exact ⟨rfl, rfl, rfl⟩

/-- `orderByScoreDesc` is a permutation step by step: it preserves length. -/
theorem insertByScore_length (l : ApolloLead) :
    ∀ (ls : List ApolloLead),
      (ApolloLeadScraper.insertByScore l ls).length = ls.length + 1 := by
  intro ls
  induction ls with
  | nil => rfl
  | cons x xs ih =>
    rw [ApolloLeadScraper.insertByScore]
    split_ifs
    · simp
    · simp only [List.length_cons, ih]

/-- Sorting for the sheet preserves the number of rows. -/
theorem orderByScoreDesc_length (ls : List ApolloLead) :
    (ApolloLeadScraper.orderByScoreDesc ls).length = ls.length := by
  unfold ApolloLeadScraper.orderByScoreDesc
  induction ls with
  | nil => rfl
  | cons x xs ih =>
    rw [List.foldr_cons, insertByScore_length, ih, List.length_cons]

/-- The person record used in the C2 scenario. -/
def c2Person : ApolloPerson :=
  { id := "apollo-p1", name := "Omar Hassan", title := "CTO",
    email := "omar@airarabia.com", email_status := "verified", city := "Sharjah",
    org_name := "Air Arabia", org_estimated_num_employees := 1000 }

/-- Claim C2 counterexample: running the Apollo pipeline twice on the same
single-person source output yields zero new leads on the second run (that part
holds), but the sink is NOT left untouched: `sync_to_google_sheets` rewrites
the sheet with a header plus one row per stored lead — 2 rows written, not
zero — and a pre-existing sheet row (`["OLD ROW"]`) is deleted rather than
preserved; `GoogleSheetsSync.sync_leads` likewise deletes every data row of
the prior sheet.  This refutes "zero Sync Sink writes on the second run" and
"the sink is only ever appended to". -/
theorem c2_counterexample :
    (ApolloLeadScraper.run_daily_collection "d2" 50
        (ApolloLeadScraper.run_daily_collection "d1" 50 [] [c2Person]).db
        [c2Person]).new_leads = [] ∧
    (ApolloLeadScraper.sync_to_google_sheets
        (ApolloLeadScraper.run_daily_collection "d1" 50 [] [c2Person]).db
        [["OLD ROW"]]).length = 2 ∧
    ["OLD ROW"] ∉ ApolloLeadScraper.sync_to_google_sheets
        (ApolloLeadScraper.run_daily_collection "d1" 50 [] [c2Person]).db
        [["OLD ROW"]] ∧
    GoogleSheetsSync.sync_leads []
        [["Date Added", "Name"], ["2026-10-11", "Old Lead"]] =
      [["Date Added", "Name"]] := by decide

/-- Claim C2 as amended: a second run over identical source outputs yields
zero new Lead records and leaves the store unchanged, provided the first run
was not cut short by its target cap; but the cited sync paths are full
rewrites, not appends: `sync_to_google_sheets` ignores the prior sheet
entirely (its output is the same whatever the sheet held) and always writes a
header plus one row per stored lead, and `sync_leads` keeps only the header
row of the prior sheet and rewrites every stored lead below it.  The sink is
therefore asked to delete and rewrite prior entries on every run, and the
second run performs `(number of stored leads) + 1` row writes rather than
zero. -/
theorem c2_rerun_and_sink_amended :
    (∀ (now now2 : String) (target : Nat) (db0 : List ApolloLead)
        (people : List ApolloPerson),
        (ApolloLeadScraper.run_daily_collection now target db0
            people).leads_collected < target →
        (ApolloLeadScraper.run_daily_collection now2 target
            (ApolloLeadScraper.run_daily_collection now target db0 people).db
            people).new_leads = [] ∧
        (ApolloLeadScraper.run_daily_collection now2 target
            (ApolloLeadScraper.run_daily_collection now target db0 people).db
            people).db =
          (ApolloLeadScraper.run_daily_collection now target db0 people).db) ∧
    (∀ (db : List ApolloLead) (s1 s2 : List (List String)),
        ApolloLeadScraper.sync_to_google_sheets db s1 =
          ApolloLeadScraper.sync_to_google_sheets db s2) ∧
    (∀ (db : List ApolloLead) (sheet : List (List String)),
        (ApolloLeadScraper.sync_to_google_sheets db sheet).length =
          db.length + 1) ∧
    (∀ (leads : List RtLead) (header : List String) (rest : List (List String)),
        GoogleSheetsSync.sync_leads leads (header :: rest) =
          header :: leads.map rtRow) := by
  refine ⟨?_, ?_, ?_, ?_⟩
  · intro now now2 target db0 people h
    have hcov := run_covers_all now target db0 people h
    have := foldPeople_all_dup now2 target people
      (⟨(ApolloLeadScraper.run_daily_collection now target db0 people).db,
        0, [], 0⟩ : ApolloLeadScraper.RunState) hcov
    exact ⟨this.2.1, this.1⟩
  · intro db s1 s2; rfl
  · intro db sheet
    simp [ApolloLeadScraper.sync_to_google_sheets, orderByScoreDesc_length]
  · intro leads header rest; rfl

/-- Witness for the amended C2 theorem: the concrete two-run scenario. -/
theorem c2_rerun_and_sink_amended_witness :
    (ApolloLeadScraper.run_daily_collection "d2" 50
        (ApolloLeadScraper.run_daily_collection "d1" 50 [] [c2Person]).db
        [c2Person]).new_leads = [] ∧
    (ApolloLeadScraper.run_daily_collection "d2" 50
        (ApolloLeadScraper.run_daily_collection "d1" 50 [] [c2Person]).db
        [c2Person]).db =
      (ApolloLeadScraper.run_daily_collection "d1" 50 [] [c2Person]).db :=
  c2_rerun_and_sink_amended.1 "d1" "d2" 50 [] [c2Person] (by decide)
